import Mathlib

/-!
Verification development for the brainwise inference-serving apps
(hf-spaces/stroke-model/app.py, hf-spaces/alzheimers-model/app.py,
hf-spaces/brain-tumor-model/app.py).

Numbers are modelled as rationals; Python exceptions are modelled with
Except String; the random draws of numpy are modelled as explicit
parameters constrained to the ranges of the corresponding numpy calls.
-/

namespace Brainwise

/-! ## Stroke app: hf-spaces/stroke-model/app.py -/

/-- The ten optional form fields of the stroke endpoint
(src/hf-spaces/stroke-model/app.py, predict_stroke signature, lines 63-73). -/
structure StrokeForm where
  gender : Option String
  age : Option ℚ
  hypertension : Option Int
  heart_disease : Option Int
  ever_married : Option String
  work_type : Option String
  Residence_type : Option String
  avg_glucose_level : Option ℚ
  bmi : Option ℚ
  smoking_status : Option String
deriving DecidableEq

/-- The processed_data dict after default filling (app.py lines 93-104). -/
structure ProcessedData where
  gender : String
  age : ℚ
  hypertension : Int
  heart_disease : Int
  ever_married : String
  work_type : String
  Residence_type : String
  avg_glucose_level : ℚ
  bmi : ℚ
  smoking_status : String
deriving DecidableEq

/-- Python truthiness default for string fields: the code writes
"gender if gender else the default", so both a missing field and an
empty string fall back to the default. -/
def defaultStr (v : Option String) (d : String) : String :=
  match v with
  | some s => if s = "" then d else s
  | none => d

/-- Python is-None default for numeric fields: "float(age) if age is not
None else 0" replaces only a missing field. -/
def defaultNum (v : Option ℚ) (d : ℚ) : ℚ :=
  match v with
  | some x => x
  | none => d

/-- Same for the two integer flags. -/
def defaultInt (v : Option Int) (d : Int) : Int :=
  match v with
  | some x => x
  | none => d

/-- Default filling of the stroke form (app.py lines 93-104). -/
def processForm (f : StrokeForm) : ProcessedData :=
  { gender := defaultStr f.gender "Male"
    age := defaultNum f.age 0
    hypertension := defaultInt f.hypertension 0
    heart_disease := defaultInt f.heart_disease 0
    ever_married := defaultStr f.ever_married "No"
    work_type := defaultStr f.work_type "Private"
    Residence_type := defaultStr f.Residence_type "Urban"
    avg_glucose_level := defaultNum f.avg_glucose_level 0
    bmi := defaultNum f.bmi 0
    smoking_status := defaultStr f.smoking_status "never smoked" }

/-- The additive fallback score before the cap (app.py lines 159-184):
a chain of "alternative_probability += increment" statements starting
from the base 0.05, written here as the equivalent sum of the
conditional increments in the order the code applies them. -/
def preCapScore (d : ProcessedData) : ℚ :=
  0.05
  + (if d.hypertension = 1 then 0.1 else 0)
  + (if d.heart_disease = 1 then 0.1 else 0)
  + (if d.age > 65 then 0.15 else if d.age > 55 then 0.1 else 0)
  + (if d.avg_glucose_level > 180 then 0.1
     else if d.avg_glucose_level > 140 then 0.05 else 0)
  + (if d.bmi > 30 then 0.05 else 0)
  + (if d.smoking_status = "smokes" then 0.07
     else if d.smoking_status = "formerly smoked" then 0.03 else 0)

/-- The fallback probability: the additive score capped at 0.8
(app.py line 187: alternative_probability = min(alternative_probability, 0.8)). -/
def alternativeProbability (d : ProcessedData) : ℚ :=
  min (preCapScore d) 0.8

/-- The four-tier risk bucketing, identical on the model path
(app.py lines 120-127) and the fallback path (lines 190-197). -/
def riskLevel (p : ℚ) : String :=
  if p < 0.1 then "Very Low Risk"
  else if p < 0.3 then "Low Risk"
  else if p < 0.6 then "Moderate Risk"
  else "High Risk"

/-- Risk-factor annotations, identical on the model path (app.py lines
130-144) and the fallback path (lines 203-217): a sequence of
conditional appends to an initially empty list. -/
def riskFactors (d : ProcessedData) : List String :=
  (if d.hypertension = 1 then ["Hypertension"] else [])
  ++ (if d.heart_disease = 1 then ["Heart Disease"] else [])
  ++ (if d.age > 65 then ["Advanced Age (65+)"] else [])
  ++ (if d.avg_glucose_level > 140 then ["High Blood Glucose (>140)"] else [])
  ++ (if d.bmi > 30 then ["Obesity (BMI > 30)"] else [])
  ++ (if d.smoking_status = "formerly smoked" then ["Former Smoker"] else [])
  ++ (if d.smoking_status = "smokes" then ["Current Smoker"] else [])

/-- The JSON body the stroke endpoint returns on every path
(app.py lines 147-153 and 219-225). execution_time_ms is wall-clock
time, carried here as an input parameter. -/
structure StrokeResult where
  probability : ℚ
  prediction : String
  stroke_prediction : Int
  risk_factors : List String
  execution_time_ms : ℚ
deriving DecidableEq

/-- Outcome of the model path of the try block (app.py lines 111-117):
model_info may be None (raises ValueError, line 113), the pipeline calls
may raise, or they produce a probability and a binary prediction. -/
inductive ModelOutcome where
  | absent
  | raises (msg : String)
  | ok (proba : ℚ) (binary : Int)

/-- The try block up to the pipeline calls, as an Except value:
an error routes control to the except handler. -/
def stroke_try : ModelOutcome → Except String (ℚ × Int)
  | .absent => .error "Model not loaded"
  | .raises msg => .error msg
  | .ok p b => .ok (p, b)

/-- Result assembled on the model path (app.py lines 119-153). -/
def modelResult (proba : ℚ) (binary : Int) (d : ProcessedData) (t : ℚ) : StrokeResult :=
  { probability := proba
    prediction := riskLevel proba
    stroke_prediction := binary
    risk_factors := riskFactors d
    execution_time_ms := t }

/-- Result assembled in the except handler (app.py lines 155-225). -/
def fallbackResult (d : ProcessedData) (t : ℚ) : StrokeResult :=
  { probability := alternativeProbability d
    prediction := riskLevel (alternativeProbability d)
    stroke_prediction := if alternativeProbability d > 0.5 then 1 else 0
    risk_factors := riskFactors d
    execution_time_ms := t }

/-- The whole stroke endpoint (app.py lines 63-228): fill defaults, try
the model path, and on any exception fall back to the rule-based score.
Every control path ends in a full StrokeResult. -/
def predict_stroke (m : ModelOutcome) (t : ℚ) (f : StrokeForm) : StrokeResult :=
  let d := processForm f
  match stroke_try m with
  | .ok (p, b) => modelResult p b d t
  | .error _ => fallbackResult d t

/-! ## Shared image machinery: PIL images, tensors, softmax, argmax -/

/-- PIL image modes relevant to the preprocessing pipelines. -/
inductive ImageMode where
  | L
  | RGB
  | RGBA
deriving DecidableEq

/-- Channel count produced by torchvision ToTensor for each mode. -/
def ImageMode.channels : ImageMode → Nat
  | .L => 1
  | .RGB => 3
  | .RGBA => 4

/-- A decoded PIL image: mode plus pixel dimensions. -/
structure PILImage where
  mode : ImageMode
  width : Nat
  height : Nat
deriving DecidableEq

/-- The shape and normalization state of the tensor a preprocessor
produces (the added batch dimension of unsqueeze(0) is constant and is
not tracked). normMean and normStd are none before Normalize runs. -/
structure Tensor where
  channels : Nat
  height : Nat
  width : Nat
  normMean : Option (List ℚ)
  normStd : Option (List ℚ)
deriving DecidableEq

/-- The raw input handed to a preprocessor: a PIL image, a numpy array
(converted by Image.fromarray to a PIL image), or something else. -/
inductive RawImage where
  | pil (img : PILImage)
  | ndarray (img : PILImage)
  | other
deriving DecidableEq

/-- ImageNet per-channel means used by both image apps. -/
def IMAGENET_MEAN : List ℚ := [0.485, 0.456, 0.406]

/-- ImageNet per-channel standard deviations used by both image apps. -/
def IMAGENET_STD : List ℚ := [0.229, 0.224, 0.225]

/-- transforms.Resize((224, 224)). -/
def resize224 (img : PILImage) : PILImage :=
  { img with width := 224, height := 224 }

/-- transforms.ToTensor: channels are those of the image mode. -/
def toTensor (img : PILImage) : Tensor :=
  { channels := img.mode.channels
    height := img.height
    width := img.width
    normMean := none
    normStd := none }

/-- transforms.Normalize(mean, std): records the constants when the
channel count matches the length of the constant lists, and raises the
torch broadcasting RuntimeError otherwise (a 3-element mean cannot be
applied to a 1- or 4-channel tensor). -/
def normalizeT (mean std : List ℚ) (t : Tensor) : Except String Tensor :=
  if t.channels = mean.length ∧ t.channels = std.length then
    .ok { t with normMean := some mean, normStd := some std }
  else
    .error "normalize: tensor shape does not match the broadcast shape"

/-- torch.nn.functional.softmax over a list of logits, with the
exponential passed in abstractly as a positive function e. -/
def softmax (e : ℚ → ℚ) (xs : List ℚ) : List ℚ :=
  (xs.map e).map (fun x => x / (xs.map e).sum)

/-- Index scan underlying argmax: first index of the strict maximum. -/
def argmaxAux (i best : Nat) (bv : ℚ) : List ℚ → Nat
  | [] => best
  | x :: xs => if bv < x then argmaxAux (i + 1) i x xs else argmaxAux (i + 1) best bv xs

/-- torch.argmax on a list (first occurrence of the maximum wins, which
is also how Python max over dict keys in insertion order behaves). -/
def argmax : List ℚ → Nat
  | [] => 0
  | x :: xs => argmaxAux 1 0 x xs

/-- The pair of values drawn by numpy on an image-app fallback:
np.random.randint(0, len(CLASSES)) and np.random.uniform(0.6, 0.95). -/
structure Rng where
  intVal : Nat
  uniVal : ℚ

/-! ## Alzheimer's app: hf-spaces/alzheimers-model/app.py -/

/-- The fixed ordered class set of the Alzheimer's app (app.py line 27). -/
def CLASSES : List String :=
  ["Non Demented", "Very Mild Demented", "Mild Demented", "Moderate Demented"]

/-- The loaded model is, for the purposes of this development, a forward
pass from a preprocessed tensor to logits, which may raise. -/
def ForwardPass : Type := Tensor → Except String (List ℚ)

/-- preprocess_image of the Alzheimer's app (app.py lines 59-79): type
check (ValueError for inputs that are neither PIL image nor ndarray),
then Resize, ToTensor, Normalize with the ImageNet constants. There is
no conversion to RGB, so a non-3-channel image fails inside Normalize. -/
def alz_preprocess_image (raw : RawImage) : Except String Tensor := do
  let img ← match raw with
    | .pil i => Except.ok i
    | .ndarray i => Except.ok i
    | .other => Except.error "Image must be a PIL Image or numpy array"
  normalizeT IMAGENET_MEAN IMAGENET_STD (toTensor (resize224 img))

/-- The inner try block of predict (app.py lines 91-106): preprocess,
then the forward pass. -/
def alz_infer_attempt (fwd : ForwardPass) (raw : RawImage) : Except String (List ℚ) := do
  let t ← alz_preprocess_image raw
  fwd t

/-- predict of the Alzheimer's app (app.py lines 82-113): if the model
is None, or if preprocessing or inference raises, return the random
fallback (CLASSES[randint], uniform(0.6, 0.95)); otherwise softmax the
logits and return (CLASSES[argmax], probabilities[argmax]). -/
def alz_predict (e : ℚ → ℚ) (rng : Rng) (model : Option ForwardPass)
    (raw : RawImage) : String × ℚ :=
  match model with
  | none => (CLASSES.getD rng.intVal "", rng.uniVal)
  | some fwd =>
    match alz_infer_attempt fwd raw with
    | .ok logits =>
      let probs := softmax e logits
      (CLASSES.getD (argmax probs) "", probs.getD (argmax probs) 0)
    | .error _ => (CLASSES.getD rng.intVal "", rng.uniVal)

/-- Outcome of the model-construction attempt inside load_model of the
Alzheimer's app (app.py lines 36-51): either a built model or an
exception message. -/
def AlzLoadOutcome : Type := Except String ForwardPass

/-- load_model of the Alzheimer's app (app.py lines 33-56): a global
Option-valued model variable; the body runs only while it is None, and
its try/except leaves the variable None on failure. Returns the pair
(new global state, returned value). -/
def alz_load_model (st : Option ForwardPass) (o : AlzLoadOutcome) :
    Option ForwardPass × Option ForwardPass :=
  match st with
  | some m => (some m, some m)
  | none =>
    match o with
    | .ok m => (some m, some m)
    | .error _ => (none, none)

/-- The JSON bodies the Alzheimer's endpoints can return:
a prediction body (process_image, lines 119-122), the error-shaped body
of process_url (lines 131-135), or an error-only body (api_predict
lines 152 and 157). -/
inductive AlzResponse where
  | body (prediction : String) (confidence : ℚ)
  | urlError (prediction : String) (confidence : ℚ) (error : String)
  | errorOnly (error : String)
deriving DecidableEq

/-- True exactly when the response is a plain prediction/confidence
body. -/
def AlzResponse.isPredictionBody : AlzResponse → Bool
  | .body .. => true
  | _ => false

/-- process_image (app.py lines 116-122): load the model, predict, wrap
in a prediction body. -/
def alz_process_image (e : ℚ → ℚ) (rng : Rng) (st : Option ForwardPass)
    (lo : AlzLoadOutcome) (raw : RawImage) : AlzResponse :=
  let m := (alz_load_model st lo).2
  let r := alz_predict e rng m raw
  .body r.1 r.2

/-- process_url (app.py lines 125-135): fetch and decode the URL; on any
exception return the error-shaped body with prediction text
"Error processing image" and confidence 0. -/
def alz_process_url (e : ℚ → ℚ) (rng : Rng) (st : Option ForwardPass)
    (lo : AlzLoadOutcome) (fetch : Except String RawImage) : AlzResponse :=
  match fetch with
  | .ok raw => alz_process_image e rng st lo raw
  | .error msg => .urlError "Error processing image" 0 msg

/-- The request shape of an image-app api_predict call: a file (whose
decode may fail), a fileUrl (whose fetch plus decode may fail), or
neither. -/
inductive ApiInput where
  | file (decode : Except String RawImage)
  | url (fetch : Except String RawImage)
  | neither

/-- The try block of api_predict of the Alzheimer's app (app.py lines
143-155): a file-decode failure raises out of the block; the url branch
and the missing-input branch return normally. -/
def alz_api_predict_try (e : ℚ → ℚ) (rng : Rng) (st : Option ForwardPass)
    (lo : AlzLoadOutcome) (inp : ApiInput) : Except String AlzResponse :=
  match inp with
  | .file d => do
    let raw ← d
    Except.ok (alz_process_image e rng st lo raw)
  | .url f => Except.ok (alz_process_url e rng st lo f)
  | .neither => Except.ok (.errorOnly "Either file or fileUrl is required")

/-- api_predict of the Alzheimer's app (app.py lines 138-157): the
surrounding except handler converts any raised exception into an
error-only JSON body, so the handler never propagates an error to the
HTTP layer (an .error result here would model an HTTP 500). -/
def alz_api_predict (e : ℚ → ℚ) (rng : Rng) (st : Option ForwardPass)
    (lo : AlzLoadOutcome) (inp : ApiInput) : Except String AlzResponse :=
  match alz_api_predict_try e rng st lo inp with
  | .ok r => .ok r
  | .error msg => .ok (.errorOnly msg)

/-! ## Brain-tumor app: hf-spaces/brain-tumor-model/app.py -/

/-- The fixed ordered class set of the brain-tumor app (app.py line 18). -/
def CLASS_NAMES : List String := ["glioma", "meningioma", "pituitary", "no_tumor"]

/-- The two model contents bt load_model can produce: the fine-tuned
weights loaded from tumor_detection_model.pth, or the ImageNet-pretrained
ResNet50 base used when the file is missing or loading it fails. -/
inductive BtModel where
  | fineTuned
  | pretrainedOnly
deriving DecidableEq

/-- Outcome of the saved-weights step inside bt load_model (app.py
lines 50-61): the file may be missing, load_state_dict may succeed, or
it may raise (which the code catches). -/
inductive WeightsOutcome where
  | fileMissing
  | loadOk
  | loadFails

/-- load_model of the brain-tumor app (app.py lines 36-65): returns the
memoized global if set; otherwise builds ResNet50, tries the saved
weights, and on a missing file or a load failure keeps the pretrained
base. Every branch stores and returns a model: the handle is never
absent. Returns (new global state, returned model). -/
def bt_load_model (st : Option BtModel) (o : WeightsOutcome) : Option BtModel × BtModel :=
  match st with
  | some m => (some m, m)
  | none =>
    match o with
    | .loadOk => (some .fineTuned, .fineTuned)
    | .fileMissing => (some .pretrainedOnly, .pretrainedOnly)
    | .loadFails => (some .pretrainedOnly, .pretrainedOnly)

/-- preprocess_image of the brain-tumor app (app.py lines 68-84):
ndarray inputs are converted via fromarray; anything that is not an
image raises (AttributeError on .mode); a non-RGB image is converted to
RGB before Resize, ToTensor and Normalize, so the channel count is
always 3. -/
def bt_preprocess_image (raw : RawImage) : Except String Tensor := do
  let img ← match raw with
    | .pil i => Except.ok i
    | .ndarray i => Except.ok i
    | .other => Except.error "object has no attribute mode"
  let img := if img.mode ≠ ImageMode.RGB then { img with mode := ImageMode.RGB } else img
  normalizeT IMAGENET_MEAN IMAGENET_STD (toTensor (resize224 img))

/-- The shared inference sequence of the brain-tumor endpoints (app.py
lines 130-141 and 175-186): preprocess, forward, softmax, then build the
class-probability dict in CLASS_NAMES order and take the first maximal
key (Python max over the dict, which equals the argmax index). Returns
(predicted class, confidence, class probabilities). -/
def bt_infer (e : ℚ → ℚ) (fwd : ForwardPass) (raw : RawImage) :
    Except String (String × ℚ × List (String × ℚ)) := do
  let t ← bt_preprocess_image raw
  let logits ← fwd t
  let probs := softmax e logits
  let idx := argmax probs
  Except.ok (CLASS_NAMES.getD idx "", probs.getD idx 0, CLASS_NAMES.zip probs)

/-- The JSON bodies the brain-tumor API can return: the success body
(app.py lines 143-149 and 188-194), the error-shaped body of
process_url with prediction null and confidence 0 (lines 151-158), or
the error-only body of api_predict (lines 199 and 201). -/
inductive BtResponse where
  | body (prediction : String) (confidence : ℚ) (is_tumor : Bool)
      (binary_result : String) (class_probabilities : List (String × ℚ))
  | errorBody (error : String) (prediction : Option String) (confidence : ℚ)
      (is_tumor : Bool) (binary_result : String)
      (class_probabilities : List (String × ℚ))
  | errorOnly (error : String)
deriving DecidableEq

/-- True exactly when the response is a success body carrying a
prediction and a confidence. -/
def BtResponse.isPredictionBody : BtResponse → Bool
  | .body .. => true
  | _ => false

/-- Builds the success body from an inference result (app.py lines
143-149 / 188-194). -/
def bt_success_body (r : String × ℚ × List (String × ℚ)) : BtResponse :=
  .body r.1 r.2.1 (r.1 ≠ "no_tumor")
    (if r.1 ≠ "no_tumor" then "Tumor Detected" else "No Tumor Detected")
    r.2.2

/-- process_url of the brain-tumor app (app.py lines 122-158): fetch and
decode the URL, run the inference sequence, and on any exception return
the error-shaped body with prediction null, confidence 0, is_tumor
false, binary_result "Error" and an all-zero probability dict. -/
def bt_process_url (e : ℚ → ℚ) (fwd : ForwardPass)
    (fetch : Except String RawImage) : BtResponse :=
  match (do
      let raw ← fetch
      bt_infer e fwd raw : Except String (String × ℚ × List (String × ℚ))) with
  | .ok r => bt_success_body r
  | .error msg =>
    .errorBody msg none 0 false "Error" (CLASS_NAMES.map (fun l => (l, 0)))

/-- The try block of api_predict of the brain-tumor app (app.py lines
166-199): in the file branch a decode or inference failure raises out
of the block; the url branch delegates to process_url (which catches
its own errors); the missing-input branch returns the error-only body. -/
def bt_api_predict_try (e : ℚ → ℚ) (fwd : ForwardPass) (inp : ApiInput) :
    Except String BtResponse :=
  match inp with
  | .file d => do
    let raw ← d
    let r ← bt_infer e fwd raw
    Except.ok (bt_success_body r)
  | .url f => Except.ok (bt_process_url e fwd f)
  | .neither => Except.ok (.errorOnly "Either file or fileUrl is required")

/-- api_predict of the brain-tumor app (app.py lines 161-201): the
surrounding except handler converts any raised exception into an
error-only JSON body, so the handler never propagates an error to the
HTTP layer. -/
def bt_api_predict (e : ℚ → ℚ) (fwd : ForwardPass) (inp : ApiInput) :
    Except String BtResponse :=
  match bt_api_predict_try e fwd inp with
  | .ok r => .ok r
  | .error msg => .ok (.errorOnly msg)

/-! ## Helper lemmas -/

theorem sum_map_div (l : List ℚ) (s : ℚ) : (l.map (fun x => x / s)).sum = l.sum / s := by
  induction l with
  | nil => simp
  | cons a t ih => simp [ih, add_div]

theorem softmax_length (e : ℚ → ℚ) (xs : List ℚ) : (softmax e xs).length = xs.length := by
  simp [softmax]

theorem softmax_sum (e : ℚ → ℚ) (he : ∀ x, 0 < e x) (xs : List ℚ) (hne : xs ≠ []) :
    (softmax e xs).sum = 1 := by
  have hpos : 0 < (xs.map e).sum := by
    refine List.sum_pos (xs.map e) ?_ ?_
    · intro x hx
      obtain ⟨y, _, rfl⟩ := List.mem_map.mp hx
      exact he y
    · simpa using hne
  unfold softmax
  rw [sum_map_div]
  exact div_self (ne_of_gt hpos)

theorem argmaxAux_lt (xs : List ℚ) : ∀ (i best : Nat) (bv : ℚ), best < i →
    argmaxAux i best bv xs < i + xs.length := by
  induction xs with
  | nil =>
    intro i best bv h
    simpa [argmaxAux] using h
  | cons x t ih =>
    intro i best bv h
    by_cases hc : bv < x
    · have h2 := ih (i + 1) i x (Nat.lt_succ_self i)
      simp only [argmaxAux, hc, if_true, List.length_cons]
      omega
    · have h2 := ih (i + 1) best bv (Nat.lt_succ_of_lt h)
      simp only [argmaxAux, hc, if_false, List.length_cons]
      omega

theorem argmax_lt (xs : List ℚ) (hne : xs ≠ []) : argmax xs < xs.length := by
  match xs, hne with
  | x :: t, _ =>
    have h := argmaxAux_lt t 1 0 x Nat.one_pos
    simpa [argmax, Nat.add_comm] using h

theorem getD_mem_of_lt {α : Type} (l : List α) (d : α) (i : Nat) (h : i < l.length) :
    l.getD i d ∈ l := by
  induction l generalizing i with
  | nil => exact absurd h (by simp)
  | cons a t ih =>
    cases i with
    | zero => exact List.mem_cons_self a t
    | succ n =>
      have hn : n < t.length := by simpa using h
      exact List.mem_cons_of_mem a (ih n hn)

theorem preCapScore_ge (d : ProcessedData) : 0.05 ≤ preCapScore d := by
  unfold preCapScore
  split_ifs <;> norm_num

theorem preCapScore_le (d : ProcessedData) : preCapScore d ≤ 0.62 := by
  unfold preCapScore
  split_ifs <;> norm_num

theorem alternativeProbability_eq (d : ProcessedData) :
    alternativeProbability d = preCapScore d := by
  unfold alternativeProbability
  exact min_eq_left (le_trans (preCapScore_le d) (by norm_num))

theorem riskLevel_mem (p : ℚ) :
    riskLevel p ∈ ["Very Low Risk", "Low Risk", "Moderate Risk", "High Risk"] := by
  unfold riskLevel
  split_ifs <;> simp

/-! ## Concrete instances shared by several statements -/

/-- A stroke request with every form field omitted. -/
def emptyStrokeForm : StrokeForm :=
  ⟨none, none, none, none, none, none, none, none, none, none⟩

/-- The documented defaults for the ten stroke form fields. -/
def defaultProcessed : ProcessedData :=
  ⟨"Male", 0, 0, 0, "No", "Private", "Urban", 0, 0, "never smoked"⟩

/-- The stroke request with hypertension 1, age 70, glucose 150 and all
other fields omitted. -/
def c6Form : StrokeForm :=
  ⟨none, some 70, some 1, none, none, none, none, some 150, none, none⟩

/-- A concrete stand-in for the exponential: the constant function 1,
which is positive everywhere. -/
def expOne : ℚ → ℚ := fun _ => 1

/-- A concrete forward pass that always returns four zero logits. -/
def fwdZero : ForwardPass := fun _ => Except.ok [0, 0, 0, 0]

/-- A concrete draw of the two numpy fallback values: class index 0 and
confidence 0.7. -/
def rng0 : Rng := ⟨0, 0.7⟩

/-! ## Claim theorems -/

/-- C2: for every stroke request that reaches the fallback path (model
absent, which raises ValueError, or any inference error), the returned
probability equals the rule-based additive score - base 0.05, plus 0.10
for hypertension, plus 0.10 for heart disease, plus 0.15 if age is over
65 else 0.10 if over 55, plus 0.10 if glucose is over 180 else 0.05 if
over 140, plus 0.05 if BMI is over 30, plus 0.07 for a current smoker
else 0.03 for a former smoker - capped at 0.8. -/
theorem C2_fallback_probability (t : ℚ) (f : StrokeForm) (msg : String) :
    ((predict_stroke (ModelOutcome.raises msg) t f).probability =
      min (0.05
        + (if (processForm f).hypertension = 1 then 0.1 else 0)
        + (if (processForm f).heart_disease = 1 then 0.1 else 0)
        + (if (processForm f).age > 65 then 0.15
           else if (processForm f).age > 55 then 0.1 else 0)
        + (if (processForm f).avg_glucose_level > 180 then 0.1
           else if (processForm f).avg_glucose_level > 140 then 0.05 else 0)
        + (if (processForm f).bmi > 30 then 0.05 else 0)
        + (if (processForm f).smoking_status = "smokes" then 0.07
           else if (processForm f).smoking_status = "formerly smoked" then 0.03 else 0))
        0.8)
    ∧ ((predict_stroke ModelOutcome.absent t f).probability =
      min (0.05
        + (if (processForm f).hypertension = 1 then 0.1 else 0)
        + (if (processForm f).heart_disease = 1 then 0.1 else 0)
        + (if (processForm f).age > 65 then 0.15
           else if (processForm f).age > 55 then 0.1 else 0)
        + (if (processForm f).avg_glucose_level > 180 then 0.1
           else if (processForm f).avg_glucose_level > 140 then 0.05 else 0)
        + (if (processForm f).bmi > 30 then 0.05 else 0)
        + (if (processForm f).smoking_status = "smokes" then 0.07
           else if (processForm f).smoking_status = "formerly smoked" then 0.03 else 0))
        0.8) :=
  ⟨rfl, rfl⟩

/-- C4: on both the model path and the fallback path the returned risk
label is riskLevel of the returned probability, and riskLevel implements
the fixed breakpoints 0.10, 0.30, 0.60, mapping 0.05 to Very Low Risk,
0.25 to Low Risk, 0.45 to Moderate Risk and 0.75 to High Risk. -/
theorem C4_risk_bucketing :
    (∀ (m : ModelOutcome) (t : ℚ) (f : StrokeForm),
      (predict_stroke m t f).prediction = riskLevel (predict_stroke m t f).probability)
    ∧ (∀ p : ℚ, p < 0.1 → riskLevel p = "Very Low Risk")
    ∧ (∀ p : ℚ, 0.1 ≤ p → p < 0.3 → riskLevel p = "Low Risk")
    ∧ (∀ p : ℚ, 0.3 ≤ p → p < 0.6 → riskLevel p = "Moderate Risk")
    ∧ (∀ p : ℚ, 0.6 ≤ p → riskLevel p = "High Risk")
    ∧ riskLevel 0.05 = "Very Low Risk"
    ∧ riskLevel 0.25 = "Low Risk"
    ∧ riskLevel 0.45 = "Moderate Risk"
    ∧ riskLevel 0.75 = "High Risk" := by
  refine ⟨?_, ?_, ?_, ?_, ?_, ?_, ?_, ?_, ?_⟩
  · intro m t f
    cases m <;> rfl
  · intro p h
    unfold riskLevel
    rw [if_pos h]
  · intro p h1 h2
    unfold riskLevel
    rw [if_neg (by linarith), if_pos h2]
  · intro p h1 h2
    unfold riskLevel
    rw [if_neg (by linarith), if_neg (by linarith), if_pos h2]
  · intro p h1
    unfold riskLevel
    rw [if_neg (by linarith), if_neg (by linarith), if_neg (by linarith)]
  · simp [riskLevel]
    norm_num
  · simp [riskLevel]
    norm_num
  · simp [riskLevel]
    norm_num
  · simp [riskLevel]
    norm_num

/-- C4 witness: the breakpoint lemmas applied at the concrete
probability 0.45. -/
theorem C4_witness : riskLevel 0.45 = "Moderate Risk" :=
  C4_risk_bucketing.2.2.2.1 0.45 (by norm_num) (by norm_num)

/-- C5: every missing form field is replaced by its documented default
before prediction; the all-omitted request processes to exactly the
documented defaults; and on the fallback path the all-omitted request
yields the fixed result with probability 0.05, label Very Low Risk,
binary prediction 0 and no risk factors. -/
theorem C5_defaults :
    (∀ f : StrokeForm,
      (f.gender = none → (processForm f).gender = "Male")
      ∧ (f.age = none → (processForm f).age = 0)
      ∧ (f.hypertension = none → (processForm f).hypertension = 0)
      ∧ (f.heart_disease = none → (processForm f).heart_disease = 0)
      ∧ (f.ever_married = none → (processForm f).ever_married = "No")
      ∧ (f.work_type = none → (processForm f).work_type = "Private")
      ∧ (f.Residence_type = none → (processForm f).Residence_type = "Urban")
      ∧ (f.avg_glucose_level = none → (processForm f).avg_glucose_level = 0)
      ∧ (f.bmi = none → (processForm f).bmi = 0)
      ∧ (f.smoking_status = none → (processForm f).smoking_status = "never smoked"))
    ∧ processForm emptyStrokeForm = defaultProcessed
    ∧ (∀ (t : ℚ) (msg : String),
      predict_stroke (ModelOutcome.raises msg) t emptyStrokeForm =
        ⟨0.05, "Very Low Risk", 0, [], t⟩
      ∧ predict_stroke ModelOutcome.absent t emptyStrokeForm =
        ⟨0.05, "Very Low Risk", 0, [], t⟩) := by
  refine ⟨?_, rfl, ?_⟩
  · intro f
    refine ⟨?_, ?_, ?_, ?_, ?_, ?_, ?_, ?_, ?_, ?_⟩ <;>
      (intro h; simp [processForm, defaultStr, defaultNum, defaultInt, h])
  · intro t msg
    constructor <;>
      (simp [predict_stroke, stroke_try, fallbackResult, alternativeProbability,
        preCapScore, processForm, emptyStrokeForm, defaultStr, defaultNum, defaultInt,
        riskLevel, riskFactors]
       norm_num)

/-- C5 witness: the defaulting lemmas applied to the all-omitted form. -/
theorem C5_witness : (processForm emptyStrokeForm).gender = "Male" :=
  (C5_defaults.1 emptyStrokeForm).1 rfl

/-- C6: for the request with hypertension 1, age 70, glucose 150 and all
other fields omitted, the returned risk-factor list is exactly
Hypertension, Advanced Age (65+), High Blood Glucose (>140), on the
model path and on the fallback path alike. -/
theorem C6_risk_factors :
    ∀ (m : ModelOutcome) (t : ℚ),
      (predict_stroke m t c6Form).risk_factors =
        ["Hypertension", "Advanced Age (65+)", "High Blood Glucose (>140)"] := by
  intro m t
  cases m <;>
    (simp [predict_stroke, stroke_try, modelResult, fallbackResult, riskFactors,
      processForm, c6Form, defaultStr, defaultNum, defaultInt]
     norm_num)

/-- C10: for every processed input the additive fallback score lies in
the interval 0.05 to 0.62, so the cap min(score, 0.8) never alters the
value, and on the fallback path the stroke endpoint returns a
probability in that interval. -/
theorem C10_fallback_bounds :
    (∀ d : ProcessedData,
      0.05 ≤ preCapScore d
      ∧ preCapScore d ≤ 0.62
      ∧ min (preCapScore d) 0.8 = preCapScore d)
    ∧ (∀ (t : ℚ) (f : StrokeForm) (msg : String),
      (0.05 ≤ (predict_stroke (ModelOutcome.raises msg) t f).probability
        ∧ (predict_stroke (ModelOutcome.raises msg) t f).probability ≤ 0.62)
      ∧ (0.05 ≤ (predict_stroke ModelOutcome.absent t f).probability
        ∧ (predict_stroke ModelOutcome.absent t f).probability ≤ 0.62)) := by
  constructor
  · intro d
    refine ⟨preCapScore_ge d, preCapScore_le d, ?_⟩
    exact min_eq_left (le_trans (preCapScore_le d) (by norm_num))
  · intro t f msg
    have hp : (predict_stroke (ModelOutcome.raises msg) t f).probability =
        alternativeProbability (processForm f) := rfl
    have ha : (predict_stroke ModelOutcome.absent t f).probability =
        alternativeProbability (processForm f) := rfl
    rw [hp, ha, alternativeProbability_eq]
    exact ⟨⟨preCapScore_ge _, preCapScore_le _⟩, ⟨preCapScore_ge _, preCapScore_le _⟩⟩

/-- C1 counterexample: a brain-tumor api_predict call whose uploaded
file fails to decode returns the error-only JSON body, which carries no
prediction and no confidence field, so the failure path does not produce
the claimed prediction/confidence result object. -/
theorem C1_counterexample :
    bt_api_predict expOne fwdZero (ApiInput.file (Except.error "cannot identify image file")) =
      Except.ok (BtResponse.errorOnly "cannot identify image file")
    ∧ (BtResponse.errorOnly "cannot identify image file").isPredictionBody = false :=
  ⟨rfl, rfl⟩

/-- C1 amended: no failure path of any endpoint propagates a raw error
or an HTTP error status - both image api_predict handlers catch every
exception and answer with a JSON body, and the stroke endpoint always
returns the full schema with a well-formed risk label - but on the image
apps an endpoint-level failure (file decode error, and in the
brain-tumor app any file-path inference error) yields an error-only
body rather than a prediction/confidence body. -/
theorem C1_amended :
    (∀ (e : ℚ → ℚ) (rng : Rng) (st : Option ForwardPass) (lo : AlzLoadOutcome) (inp : ApiInput),
      (alz_api_predict e rng st lo inp).isOk = true)
    ∧ (∀ (e : ℚ → ℚ) (fwd : ForwardPass) (inp : ApiInput),
      (bt_api_predict e fwd inp).isOk = true)
    ∧ (∀ (m : ModelOutcome) (t : ℚ) (f : StrokeForm),
      (predict_stroke m t f).prediction ∈
        ["Very Low Risk", "Low Risk", "Moderate Risk", "High Risk"])
    ∧ (∀ (e : ℚ → ℚ) (rng : Rng) (st : Option ForwardPass) (lo : AlzLoadOutcome) (msg : String),
      alz_api_predict e rng st lo (ApiInput.file (Except.error msg)) =
        Except.ok (AlzResponse.errorOnly msg))
    ∧ (∀ (e : ℚ → ℚ) (fwd : ForwardPass) (msg : String),
      bt_api_predict e fwd (ApiInput.file (Except.error msg)) =
        Except.ok (BtResponse.errorOnly msg)) := by
  refine ⟨?_, ?_, ?_, ?_, ?_⟩
  · intro e rng st lo inp
    cases inp with
    | file d => cases d <;> rfl
    | url f => rfl
    | neither => rfl
  · intro e fwd inp
    cases inp with
    | file d =>
      cases d with
      | ok raw =>
        simp only [bt_api_predict, bt_api_predict_try]
        cases h : bt_infer e fwd raw <;>
          simp [h, Bind.bind, Except.bind, Except.isOk, Except.toBool]
      | error msg => rfl
    | url f => rfl
    | neither => rfl
  · intro m t f
    have h : (predict_stroke m t f).prediction =
        riskLevel (predict_stroke m t f).probability := by
      cases m <;> rfl
    rw [h]
    exact riskLevel_mem _
  · intro e rng st lo msg
    rfl
  · intro e fwd msg
    rfl

/-- C3 counterexample: when the brain-tumor URL path fails (here a
failed fetch), the returned body is the error shape with prediction
null and confidence 0 - not a random class with a confidence in the
interval from 0.6 to 0.95 - so the claim fails for the brain-tumor app. -/
theorem C3_counterexample :
    bt_process_url expOne fwdZero (Except.error "HTTP 404") =
      BtResponse.errorBody "HTTP 404" none 0 false "Error"
        [("glioma", 0), ("meningioma", 0), ("pituitary", 0), ("no_tumor", 0)]
    ∧ ¬ ((0.6 : ℚ) ≤ 0) :=
  ⟨rfl, by norm_num⟩

/-- C3 amended: in the Alzheimer's app, when the model handle is absent
or preprocessing/inference raises, the result is the randomly drawn
class (a member of CLASSES) with the uniform confidence draw from the
interval 0.6 to 0.95; the brain-tumor app has no such fallback - its
URL-path failures return the error body with prediction null and
confidence 0, and its file-path inference failures return an error-only
body. -/
theorem C3_amended (e : ℚ → ℚ) (rng : Rng) (hi : rng.intVal < CLASSES.length)
    (h1 : 0.6 ≤ rng.uniVal) (h2 : rng.uniVal ≤ 0.95) :
    (∀ raw : RawImage,
      alz_predict e rng none raw = (CLASSES.getD rng.intVal "", rng.uniVal)
      ∧ CLASSES.getD rng.intVal "" ∈ CLASSES
      ∧ 0.6 ≤ (alz_predict e rng none raw).2
      ∧ (alz_predict e rng none raw).2 ≤ 0.95)
    ∧ (∀ (fwd : ForwardPass) (raw : RawImage) (msg : String),
      alz_infer_attempt fwd raw = Except.error msg →
        alz_predict e rng (some fwd) raw = (CLASSES.getD rng.intVal "", rng.uniVal))
    ∧ (∀ (fwd : ForwardPass) (msg : String),
      bt_process_url e fwd (Except.error msg) =
        BtResponse.errorBody msg none 0 false "Error" (CLASS_NAMES.map (fun l => (l, 0))))
    ∧ (∀ (fwd : ForwardPass) (raw : RawImage) (msg : String),
      bt_infer e fwd raw = Except.error msg →
        bt_api_predict e fwd (ApiInput.file (Except.ok raw)) =
          Except.ok (BtResponse.errorOnly msg)) := by
  refine ⟨?_, ?_, ?_, ?_⟩
  · intro raw
    exact ⟨rfl, getD_mem_of_lt CLASSES "" rng.intVal hi, h1, h2⟩
  · intro fwd raw msg h
    simp [alz_predict, h]
  · intro fwd msg
    rfl
  · intro fwd raw msg h
    simp [bt_api_predict, bt_api_predict_try, Bind.bind, Except.bind, h]

/-- C3 witness: the amended fallback behaviour at the concrete draw
(class index 0, confidence 0.7) with the model handle absent. -/
theorem C3_witness :
    alz_predict expOne rng0 none RawImage.other = (CLASSES.getD rng0.intVal "", rng0.uniVal)
    ∧ CLASSES.getD rng0.intVal "" ∈ CLASSES
    ∧ 0.6 ≤ (alz_predict expOne rng0 none RawImage.other).2
    ∧ (alz_predict expOne rng0 none RawImage.other).2 ≤ 0.95 :=
  (C3_amended expOne rng0 (by simp [rng0, CLASSES])
    (by simp [rng0]; norm_num) (by simp [rng0]; norm_num)).1 RawImage.other

/-- C8 counterexample: when loading the saved brain-tumor weights fails,
bt load_model does not return an absent handle - it stores and returns
the ImageNet-pretrained base model. -/
theorem C8_counterexample :
    bt_load_model none WeightsOutcome.loadFails =
      (some BtModel.pretrainedOnly, BtModel.pretrainedOnly)
    ∧ (bt_load_model none WeightsOutcome.loadFails).1 ≠ none :=
  ⟨rfl, by simp [bt_load_model]⟩

/-- C8 amended: both loaders are memoized - once the global holds a
model every later call returns that same handle without re-running the
load - and neither loader raises to its caller; on a load failure the
Alzheimer's loader returns the absent handle, while the brain-tumor
loader instead substitutes the pretrained base model (its handle is
never absent). -/
theorem C8_amended :
    (∀ (m : ForwardPass) (o : AlzLoadOutcome), alz_load_model (some m) o = (some m, some m))
    ∧ (∀ (m : BtModel) (o : WeightsOutcome), bt_load_model (some m) o = (some m, m))
    ∧ (∀ (m : ForwardPass) (o2 : AlzLoadOutcome),
      alz_load_model (alz_load_model none (Except.ok m)).1 o2 = (some m, some m))
    ∧ (∀ (m : BtModel) (o2 : WeightsOutcome),
      bt_load_model (some m) o2 = (some m, m))
    ∧ (∀ msg : String, alz_load_model none (Except.error msg) = (none, none))
    ∧ bt_load_model none WeightsOutcome.loadFails =
        (some BtModel.pretrainedOnly, BtModel.pretrainedOnly)
    ∧ bt_load_model none WeightsOutcome.fileMissing =
        (some BtModel.pretrainedOnly, BtModel.pretrainedOnly) := by
  refine ⟨?_, ?_, ?_, ?_, ?_, rfl, rfl⟩
  · intro m o
    rfl
  · intro m o
    rfl
  · intro m o2
    rfl
  · intro m o2
    rfl
  · intro msg
    rfl

/-- The concrete grayscale image used to separate the two
preprocessors. -/
def grayImage : PILImage := ⟨ImageMode.L, 100, 80⟩

/-- C9 counterexample: on a grayscale (one-channel) input the
Alzheimer's preprocessor does not force three-channel color - it fails
inside Normalize - while the brain-tumor preprocessor converts the same
input to RGB and produces the 224 by 224 three-channel
ImageNet-normalized tensor. -/
theorem C9_counterexample :
    alz_preprocess_image (RawImage.pil grayImage) =
      Except.error "normalize: tensor shape does not match the broadcast shape"
    ∧ bt_preprocess_image (RawImage.pil grayImage) =
      Except.ok ⟨3, 224, 224, some IMAGENET_MEAN, some IMAGENET_STD⟩ :=
  ⟨rfl, rfl⟩

/-- C9 amended: the brain-tumor preprocessor converts every PIL or
ndarray input to RGB and always outputs a 224 by 224 three-channel
tensor normalized with the ImageNet constants; the Alzheimer's
preprocessor applies the same resize and normalization but has no color
conversion, so inputs that are already three-channel produce that same
tensor while any other channel count fails inside Normalize (and is
routed to the caller's fallback). -/
theorem C9_amended :
    (∀ img : PILImage,
      bt_preprocess_image (RawImage.pil img) =
        Except.ok ⟨3, 224, 224, some IMAGENET_MEAN, some IMAGENET_STD⟩
      ∧ bt_preprocess_image (RawImage.ndarray img) =
        Except.ok ⟨3, 224, 224, some IMAGENET_MEAN, some IMAGENET_STD⟩)
    ∧ (∀ img : PILImage, img.mode.channels = 3 →
      alz_preprocess_image (RawImage.pil img) =
        Except.ok ⟨3, 224, 224, some IMAGENET_MEAN, some IMAGENET_STD⟩
      ∧ alz_preprocess_image (RawImage.ndarray img) =
        Except.ok ⟨3, 224, 224, some IMAGENET_MEAN, some IMAGENET_STD⟩)
    ∧ (∀ img : PILImage, img.mode.channels ≠ 3 →
      alz_preprocess_image (RawImage.pil img) =
        Except.error "normalize: tensor shape does not match the broadcast shape") := by
  refine ⟨?_, ?_, ?_⟩
  · intro img
    obtain ⟨m, w, h⟩ := img
    cases m <;> exact ⟨rfl, rfl⟩
  · intro img hc
    obtain ⟨m, w, h⟩ := img
    cases m with
    | L => exact absurd hc (by simp [ImageMode.channels])
    | RGB => exact ⟨rfl, rfl⟩
    | RGBA => exact absurd hc (by simp [ImageMode.channels])
  · intro img hc
    obtain ⟨m, w, h⟩ := img
    cases m with
    | L => rfl
    | RGB => exact absurd (rfl : ImageMode.RGB.channels = 3) hc
    | RGBA => rfl

/-- C9 witness: the amended statement applied to a concrete RGB image. -/
theorem C9_witness :
    alz_preprocess_image (RawImage.pil ⟨ImageMode.RGB, 10, 20⟩) =
      Except.ok ⟨3, 224, 224, some IMAGENET_MEAN, some IMAGENET_STD⟩ :=
  (C9_amended.2.1 ⟨ImageMode.RGB, 10, 20⟩ rfl).1

/-- C7: on a successful model-path inference with a logit vector of the
class-set length, the softmax probabilities sum to exactly 1 (hence to
1 within one millionth), the Alzheimer's prediction is CLASSES at the
argmax index with the argmax probability as confidence and is a member
of CLASSES, and the brain-tumor inference likewise returns CLASS_NAMES
at the argmax index (Python max over the insertion-ordered dict),
a member of CLASS_NAMES, with the full probability dict. -/
theorem C7_model_path (e : ℚ → ℚ) (he : ∀ x, 0 < e x) :
    (∀ (rng : Rng) (fwd : ForwardPass) (raw : RawImage) (logits : List ℚ),
      alz_infer_attempt fwd raw = Except.ok logits →
      logits.length = CLASSES.length →
        (softmax e logits).sum = 1
        ∧ |(softmax e logits).sum - 1| ≤ 1 / 1000000
        ∧ alz_predict e rng (some fwd) raw =
            (CLASSES.getD (argmax (softmax e logits)) "",
              (softmax e logits).getD (argmax (softmax e logits)) 0)
        ∧ CLASSES.getD (argmax (softmax e logits)) "" ∈ CLASSES)
    ∧ (∀ (fwd : ForwardPass) (raw : RawImage) (t : Tensor) (logits : List ℚ),
      bt_preprocess_image raw = Except.ok t →
      fwd t = Except.ok logits →
      logits.length = CLASS_NAMES.length →
        bt_infer e fwd raw = Except.ok
          (CLASS_NAMES.getD (argmax (softmax e logits)) "",
            (softmax e logits).getD (argmax (softmax e logits)) 0,
            CLASS_NAMES.zip (softmax e logits))
        ∧ CLASS_NAMES.getD (argmax (softmax e logits)) "" ∈ CLASS_NAMES
        ∧ (softmax e logits).sum = 1) := by
  constructor
  · intro rng fwd raw logits hinf hlen
    have hne : logits ≠ [] := by
      intro hnil
      rw [hnil] at hlen
      simp [CLASSES] at hlen
    have hsum := softmax_sum e he logits hne
    refine ⟨hsum, by rw [hsum]; norm_num, ?_, ?_⟩
    · simp [alz_predict, hinf]
    · apply getD_mem_of_lt
      have hlt := argmax_lt (softmax e logits)
        (List.ne_nil_of_length_pos (by rw [softmax_length]; exact List.length_pos.mpr hne))
      rw [softmax_length, hlen] at hlt
      exact hlt
  · intro fwd raw t logits hpre hfwd hlen
    have hne : logits ≠ [] := by
      intro hnil
      rw [hnil] at hlen
      simp [CLASS_NAMES] at hlen
    refine ⟨?_, ?_, softmax_sum e he logits hne⟩
    · simp [bt_infer, Bind.bind, Except.bind, hpre, hfwd]
    · apply getD_mem_of_lt
      have hlt := argmax_lt (softmax e logits)
        (List.ne_nil_of_length_pos (by rw [softmax_length]; exact List.length_pos.mpr hne))
      rw [softmax_length, hlen] at hlt
      exact hlt

/-- C7 witness: the model-path properties at a concrete forward pass
returning four zero logits with the constant exponential. -/
theorem C7_witness :
    (softmax expOne [0, 0, 0, 0]).sum = 1
    ∧ |(softmax expOne [0, 0, 0, 0]).sum - 1| ≤ 1 / 1000000
    ∧ alz_predict expOne rng0 (some fwdZero) (RawImage.pil ⟨ImageMode.RGB, 10, 10⟩) =
        (CLASSES.getD (argmax (softmax expOne [0, 0, 0, 0])) "",
          (softmax expOne [0, 0, 0, 0]).getD (argmax (softmax expOne [0, 0, 0, 0])) 0)
    ∧ CLASSES.getD (argmax (softmax expOne [0, 0, 0, 0])) "" ∈ CLASSES :=
  (C7_model_path expOne (fun x => by simp [expOne])).1 rng0 fwdZero
    (RawImage.pil ⟨ImageMode.RGB, 10, 10⟩) [0, 0, 0, 0] rfl rfl

end Brainwise
